import Mathlib

/-!
Verification of the coordinate-conversion core of the Linping cultural-relics
map application (`src/app.py`).

The transformation pipeline is embedded shallowly over `ℝ`:

* `_transform_lat`, `_transform_lng`, `_out_of_china`, `wgs84_to_gcj02` mirror
  the Python functions of the same names line by line (Python floats are
  idealised as real numbers, `math.sin`/`math.cos`/`math.sqrt` as
  `Real.sin`/`Real.cos`/`Real.sqrt`).
* `cgcs2000_to_gcj02` is parameterised by the external `pyproj` transformer,
  which is a third-party library and is therefore kept abstract.
* `wgs84_to_gcj02_checked` is a fallibility-aware variant in the `Option`
  monad: every operation that can raise in Python (square root of a negative
  number, division by zero) is checked and yields `none` on its error branch.
* `parse_coord_py` and `sheet_to_points` embed the upstream coordinate-string
  parser and the record-processing loop over `ℚ`/`String` (computably), with
  the two DMS regular expressions hand-compiled into deterministic
  maximal-munch matchers, which agree with Python's leftmost greedy `search`
  on these particular patterns.
* `fltLt`, `out_of_china_f`, `wgs84_to_gcj02_f` model the IEEE behaviour of
  the bounding-box comparisons when an input is NaN (`none`): every strict
  comparison involving NaN is false.
-/

namespace LinpingRelics

/-- Constant `PI` from `src/app.py` line 19 (a rational literal, slightly
below the true π). -/
noncomputable def PI : ℝ := 3.1415926535897932384626

/-- Constant `A` (semi-major axis) from `src/app.py` line 20. -/
noncomputable def A : ℝ := 6378245.0

/-- Constant `EE` (squared eccentricity) from `src/app.py` line 21. -/
noncomputable def EE : ℝ := 0.00669342162296594323

/-- Embedding of `_transform_lat` (`src/app.py` lines 23–29). -/
noncomputable def _transform_lat (lng lat : ℝ) : ℝ :=
  -100.0 + 2.0 * lng + 3.0 * lat + 0.2 * lat * lat + 0.1 * lng * lat
    + 0.2 * Real.sqrt |lng|
    + (20.0 * Real.sin (6.0 * lng * PI) + 20.0 * Real.sin (2.0 * lng * PI)) * 2.0 / 3.0
    + (20.0 * Real.sin (lat * PI) + 40.0 * Real.sin (lat / 3.0 * PI)) * 2.0 / 3.0
    + (160.0 * Real.sin (lat / 12.0 * PI) + 320 * Real.sin (lat / 30.0 * PI)) * 2.0 / 3.0

/-- Embedding of `_transform_lng` (`src/app.py` lines 31–37). -/
noncomputable def _transform_lng (lng lat : ℝ) : ℝ :=
  300.0 + lng + 2.0 * lat + 0.1 * lng * lng + 0.1 * lng * lat
    + 0.1 * Real.sqrt |lng|
    + (20.0 * Real.sin (6.0 * lng * PI) + 20.0 * Real.sin (2.0 * lng * PI)) * 2.0 / 3.0
    + (20.0 * Real.sin (lng * PI) + 40.0 * Real.sin (lng / 3.0 * PI)) * 2.0 / 3.0
    + (150.0 * Real.sin (lng / 12.0 * PI) + 300.0 * Real.sin (lng / 30.0 * PI)) * 2.0 / 3.0

/-- Embedding of `_out_of_china` (`src/app.py` lines 39–41):
`not (73.66 < lng < 135.05 and 3.86 < lat < 53.55)`. -/
def _out_of_china (lng lat : ℝ) : Prop :=
  ¬(73.66 < lng ∧ lng < 135.05 ∧ 3.86 < lat ∧ lat < 53.55)

noncomputable instance (lng lat : ℝ) : Decidable (_out_of_china lng lat) := by
  unfold _out_of_china; infer_instance

/-- Embedding of `wgs84_to_gcj02` (`src/app.py` lines 43–67), with the same
sequence of (shadowing) local bindings as the Python source. -/
noncomputable def wgs84_to_gcj02 (lng lat : ℝ) : ℝ × ℝ :=
  if _out_of_china lng lat then (lng, lat)
  else
    let d_lat := _transform_lat (lng - 105.0) (lat - 35.0)
    let d_lng := _transform_lng (lng - 105.0) (lat - 35.0)
    let rad_lat := lat / 180.0 * PI
    let magic := Real.sin rad_lat
    let magic := 1 - EE * magic * magic
    let sqrt_magic := Real.sqrt magic
    let d_lat := (d_lat * 180.0) / ((A * (1 - EE)) / (magic * sqrt_magic) * PI)
    let d_lng := (d_lng * 180.0) / (A / sqrt_magic * Real.cos rad_lat * PI)
    let mg_lat := lat + d_lat
    let mg_lng := lng + d_lng
    (mg_lng, mg_lat)

/-- Embedding of `cgcs2000_to_gcj02` (`src/app.py` lines 69–77).  The
CGCS2000→WGS84 reprojection is performed by the external `pyproj`
`Transformer` object (`src/app.py` line 16), a third-party library; it is
modelled as an abstract function argument `transform`. -/
noncomputable def cgcs2000_to_gcj02 (transform : ℝ → ℝ → ℝ × ℝ)
    (cgcs_lng cgcs_lat : ℝ) : ℝ × ℝ :=
  let p := transform cgcs_lng cgcs_lat
  wgs84_to_gcj02 p.1 p.2

/-- The latitude correction as the specification words it: a fixed polynomial
in the two offset arguments (coefficients −100.0, 2.0, 3.0, 0.2, 0.1, 0.2·√)
plus sine-series perturbation groups at periods 6x, 2x of the longitude offset
and 1x, 1/3x, 1/12x, 1/30x of the latitude offset (amplitudes
20/20/20/40/160/320), each harmonic group weighted by 2/3. -/
noncomputable def dLat_spec (x y : ℝ) : ℝ :=
  (-100.0 + 2.0 * x + 3.0 * y + 0.2 * y ^ 2 + 0.1 * x * y + 0.2 * Real.sqrt |x|)
    + 2 / 3 * (20.0 * Real.sin (6.0 * x * PI) + 20.0 * Real.sin (2.0 * x * PI))
    + 2 / 3 * (20.0 * Real.sin (y * PI) + 40.0 * Real.sin (y / 3.0 * PI))
    + 2 / 3 * (160.0 * Real.sin (y / 12.0 * PI) + 320.0 * Real.sin (y / 30.0 * PI))

/-- The longitude correction as the specification words it (coefficients
300.0, 1.0, 2.0, 0.1, 0.1, 0.1·√; harmonic amplitudes 20/20/20/40/150/300). -/
noncomputable def dLng_spec (x y : ℝ) : ℝ :=
  (300.0 + x + 2.0 * y + 0.1 * x ^ 2 + 0.1 * x * y + 0.1 * Real.sqrt |x|)
    + 2 / 3 * (20.0 * Real.sin (6.0 * x * PI) + 20.0 * Real.sin (2.0 * x * PI))
    + 2 / 3 * (20.0 * Real.sin (x * PI) + 40.0 * Real.sin (x / 3.0 * PI))
    + 2 / 3 * (150.0 * Real.sin (x / 12.0 * PI) + 300.0 * Real.sin (x / 30.0 * PI))

/-- The distortion stage as the specification words it: corrections as
functions of (lng − 105.0, lat − 35.0), scaled via
`magic = 1 − e²·sin²(lat_in_radians)`, `dLat *= 180/((a(1−e²)/magic^1.5)·π)`,
`dLng *= 180/((a/√magic)·cos(lat_in_radians)·π)`, returning
`(lng + dLng, lat + dLat)`. -/
noncomputable def magic_spec (lat : ℝ) : ℝ := 1 - EE * Real.sin (lat / 180.0 * PI) ^ 2

noncomputable def wgs84_to_gcj02_spec (lng lat : ℝ) : ℝ × ℝ :=
  (lng + dLng_spec (lng - 105.0) (lat - 35.0) *
      (180.0 / (A / Real.sqrt (magic_spec lat) * Real.cos (lat / 180.0 * PI) * PI)),
   lat + dLat_spec (lng - 105.0) (lat - 35.0) *
      (180.0 / (A * (1 - EE) / magic_spec lat ^ (1.5 : ℝ) * PI)))

/-- Operational view of the distortion stage: one step either passes the pair
through (outside the rectangle) or produces the distorted pair (inside). -/
inductive DistortStep : ℝ × ℝ → ℝ × ℝ → Prop
  | outside (lng lat : ℝ) : _out_of_china lng lat → DistortStep (lng, lat) (lng, lat)
  | inside (lng lat : ℝ) : ¬ _out_of_china lng lat →
      DistortStep (lng, lat)
        (lng + (_transform_lng (lng - 105.0) (lat - 35.0) * 180.0) /
            (A / Real.sqrt (1 - EE * Real.sin (lat / 180.0 * PI) * Real.sin (lat / 180.0 * PI)) *
              Real.cos (lat / 180.0 * PI) * PI),
         lat + (_transform_lat (lng - 105.0) (lat - 35.0) * 180.0) /
            ((A * (1 - EE)) /
              ((1 - EE * Real.sin (lat / 180.0 * PI) * Real.sin (lat / 180.0 * PI)) *
                Real.sqrt (1 - EE * Real.sin (lat / 180.0 * PI) * Real.sin (lat / 180.0 * PI))) *
              PI))

/-- Operational view of the composite conversion: apply the external
transformer, then one distortion step. -/
inductive ConvertStep (transform : ℝ → ℝ → ℝ × ℝ) : ℝ × ℝ → ℝ × ℝ → Prop
  | step (lng lat : ℝ) (out : ℝ × ℝ) :
      DistortStep (transform lng lat) out → ConvertStep transform (lng, lat) out

/-- Checked square root: Python's `math.sqrt` raises `ValueError` on a
negative argument; the error branch is `none`. -/
noncomputable def sqrtChecked (x : ℝ) : Option ℝ :=
  if x < 0 then none else some (Real.sqrt x)

/-- Checked division: Python raises `ZeroDivisionError` on a zero divisor;
the error branch is `none`. -/
noncomputable def divChecked (x y : ℝ) : Option ℝ :=
  if y = 0 then none else some (x / y)

/-- Fallibility-aware variant of `_transform_lat`: the only fallible
operation is the square root (its argument is `abs(lng)`, line 25). -/
noncomputable def _transform_lat_checked (lng lat : ℝ) : Option ℝ :=
  (sqrtChecked |lng|).bind fun s =>
    some (-100.0 + 2.0 * lng + 3.0 * lat + 0.2 * lat * lat + 0.1 * lng * lat + 0.2 * s
      + (20.0 * Real.sin (6.0 * lng * PI) + 20.0 * Real.sin (2.0 * lng * PI)) * 2.0 / 3.0
      + (20.0 * Real.sin (lat * PI) + 40.0 * Real.sin (lat / 3.0 * PI)) * 2.0 / 3.0
      + (160.0 * Real.sin (lat / 12.0 * PI) + 320 * Real.sin (lat / 30.0 * PI)) * 2.0 / 3.0)

/-- Fallibility-aware variant of `_transform_lng` (square root of `abs(lng)`,
line 33). -/
noncomputable def _transform_lng_checked (lng lat : ℝ) : Option ℝ :=
  (sqrtChecked |lng|).bind fun s =>
    some (300.0 + lng + 2.0 * lat + 0.1 * lng * lng + 0.1 * lng * lat + 0.1 * s
      + (20.0 * Real.sin (6.0 * lng * PI) + 20.0 * Real.sin (2.0 * lng * PI)) * 2.0 / 3.0
      + (20.0 * Real.sin (lng * PI) + 40.0 * Real.sin (lng / 3.0 * PI)) * 2.0 / 3.0
      + (150.0 * Real.sin (lng / 12.0 * PI) + 300.0 * Real.sin (lng / 30.0 * PI)) * 2.0 / 3.0)

/-- Fallibility-aware variant of `wgs84_to_gcj02`: every square root and every
division whose divisor is not a literal constant is checked. -/
noncomputable def wgs84_to_gcj02_checked (lng lat : ℝ) : Option (ℝ × ℝ) :=
  if _out_of_china lng lat then some (lng, lat)
  else
    (_transform_lat_checked (lng - 105.0) (lat - 35.0)).bind fun d_lat =>
    (_transform_lng_checked (lng - 105.0) (lat - 35.0)).bind fun d_lng =>
    let rad_lat := lat / 180.0 * PI
    let magic := Real.sin rad_lat
    let magic := 1 - EE * magic * magic
    (sqrtChecked magic).bind fun sqrt_magic =>
    (divChecked (A * (1 - EE)) (magic * sqrt_magic)).bind fun k_lat =>
    (divChecked (d_lat * 180.0) (k_lat * PI)).bind fun d_lat =>
    (divChecked A sqrt_magic).bind fun k_lng =>
    (divChecked (d_lng * 180.0) (k_lng * Real.cos rad_lat * PI)).bind fun d_lng =>
    some (lng + d_lng, lat + d_lat)

/-- Value of a digit string, e.g. `['1','2','0'] ↦ 120`. -/
def digitsVal (cs : List Char) : ℕ :=
  cs.foldl (fun n c => 10 * n + (c.toNat - 48)) 0

/-- Value of the fractional digits after a decimal point. -/
def fracVal (cs : List Char) : ℚ :=
  (digitsVal cs : ℚ) / (10 : ℚ) ^ cs.length

/-- Unsigned full match of `\d+(\.\d+)?` against the whole input. -/
def decToken (cs : List Char) : Option ℚ :=
  let p := cs.span Char.isDigit
  if p.1.isEmpty then none
  else
    match p.2 with
    | [] => some (digitsVal p.1 : ℚ)
    | '.' :: r2 =>
        if r2.isEmpty then none
        else if r2.all Char.isDigit then some ((digitsVal p.1 : ℚ) + fracVal r2)
        else none
    | _ => none

/-- Full match of `-?\d+(\.\d+)?` (Python `re.fullmatch` on line 140). -/
def fullDecimal (cs : List Char) : Option ℚ :=
  match cs with
  | '-' :: rest => (decToken rest).map (fun q => -q)
  | _ => decToken cs

/-- Greedy match of `\d+` at the current position; returns value and rest. -/
def intToken (cs : List Char) : Option (ℚ × List Char) :=
  let p := cs.span Char.isDigit
  if p.1.isEmpty then none else some ((digitsVal p.1 : ℚ), p.2)

/-- Greedy match of `\d+(?:\.\d+)?` at the current position. -/
def numToken (cs : List Char) : Option (ℚ × List Char) :=
  let p := cs.span Char.isDigit
  if p.1.isEmpty then none
  else
    match p.2 with
    | '.' :: r2 =>
        let q := r2.span Char.isDigit
        if q.1.isEmpty then some ((digitsVal p.1 : ℚ), p.2)
        else some ((digitsVal p.1 : ℚ) + fracVal q.1, q.2)
    | _ => some ((digitsVal p.1 : ℚ), p.2)

/-- Greedy match of the separator `[^\d]+` at the current position. -/
def sepToken (cs : List Char) : Option (List Char) :=
  let p := cs.span (fun c => !c.isDigit)
  if p.1.isEmpty then none else some p.2

/-- Match of `-?\d+` at the current position (a leading `-` is only consumed
when a digit follows, exactly as the backtracking regex behaves). -/
def signedIntToken (cs : List Char) : Option (ℚ × List Char) :=
  match cs with
  | '-' :: rest =>
      match intToken rest with
      | some p => some (-p.1, p.2)
      | none => none
  | _ => intToken cs

/-- Match of the whole pattern `(-?\d+)[^\d]+(\d+)[^\d]+(\d+(?:\.\d+)?)`
(`dms_re`, line 133) anchored at the current position. -/
def matchDMS3 (cs : List Char) : Option (ℚ × ℚ × ℚ) :=
  (signedIntToken cs).bind fun p1 =>
  (sepToken p1.2).bind fun r2 =>
  (intToken r2).bind fun p2 =>
  (sepToken p2.2).bind fun r4 =>
  (numToken r4).map fun p3 => (p1.1, p2.1, p3.1)

/-- Leftmost search of `dms_re`, trying each start position left to right
(Python `re.search` semantics for this pattern). -/
def searchDMS3 : List Char → Option (ℚ × ℚ × ℚ)
  | [] => none
  | c :: rest =>
      match matchDMS3 (c :: rest) with
      | some r => some r
      | none => searchDMS3 rest

/-- Match of `(-?\d+)[^\d]+(\d+(?:\.\d+)?)` (`dms_re2`, line 134) anchored at
the current position. -/
def matchDMS2 (cs : List Char) : Option (ℚ × ℚ) :=
  (signedIntToken cs).bind fun p1 =>
  (sepToken p1.2).bind fun r2 =>
  (numToken r2).map fun p2 => (p1.1, p2.1)

/-- Leftmost search of `dms_re2`. -/
def searchDMS2 : List Char → Option (ℚ × ℚ)
  | [] => none
  | c :: rest =>
      match matchDMS2 (c :: rest) with
      | some r => some r
      | none => searchDMS2 rest

/-- Python's `-1 if d < 0 else 1` (lines 144 and 149). -/
def pySign (d : ℚ) : ℚ := if d < 0 then -1 else 1

/-- Embedding of `parse_coord_py` (`src/app.py` lines 136–151) over `ℚ`
(Python floats idealised as rationals; `\d` restricted to ASCII digits;
`str.strip()` modelled as trimming whitespace on both ends). -/
def parse_coord_py (v : Option String) : Option ℚ :=
  match v with
  | none => none
  | some str =>
      let cs := ((str.data.dropWhile Char.isWhitespace).reverse.dropWhile
        Char.isWhitespace).reverse
      if cs.isEmpty then none
      else
        match fullDecimal cs with
        | some q => some q
        | none =>
            match searchDMS3 cs with
            | some g => some (pySign g.1 * (|g.1| + g.2.1 / 60 + g.2.2 / 3600))
            | none =>
                match searchDMS2 cs with
                | some g => some (pySign g.1 * (|g.1| + g.2 / 60))
                | none => none

/-- A spreadsheet record as it reaches the conversion loop: the string values
extracted by `get_val` (already stripped). -/
structure Row where
  name : String
  lat_str : String
  lng_str : String
  category : String

/-- A display point as built by the loop body (`src/app.py` lines 207–212);
only the fields relevant to the conversion pipeline are modelled. -/
structure RelicPoint where
  name : String
  lat : ℝ
  lng : ℝ
  category : String

/-- The body of the record loop for one row (`src/app.py` lines 193–212):
parse both coordinate strings and convert only when both parses succeed. -/
noncomputable def rowToPoint (transform : ℝ → ℝ → ℝ × ℝ) (r : Row) :
    Option RelicPoint :=
  match parse_coord_py (some r.lat_str), parse_coord_py (some r.lng_str) with
  | some lat, some lng =>
      some { name := r.name,
             lat := (cgcs2000_to_gcj02 transform (lng : ℝ) (lat : ℝ)).2,
             lng := (cgcs2000_to_gcj02 transform (lng : ℝ) (lat : ℝ)).1,
             category := r.category }
  | _, _ => none

/-- Embedding of `sheet_to_points` (`src/app.py` lines 188–213): iterate over
the rows, keeping (in order) the converted points of exactly those rows whose
two coordinates both parsed. -/
noncomputable def sheet_to_points (transform : ℝ → ℝ → ℝ × ℝ) :
    List Row → List RelicPoint
  | [] => []
  | r :: rs =>
      match rowToPoint transform r with
      | some p => p :: sheet_to_points transform rs
      | none => sheet_to_points transform rs

/-- Python float comparison lifted to possibly-NaN values (`none` models NaN):
any strict comparison involving NaN is false. -/
noncomputable def fltLt (a b : Option ℝ) : Bool :=
  match a, b with
  | some x, some y => decide (x < y)
  | _, _ => false

/-- `_out_of_china` over possibly-NaN inputs, with Python's chained
comparisons `73.66 < lng < 135.05 and 3.86 < lat < 53.55` made explicit. -/
noncomputable def out_of_china_f (lng lat : Option ℝ) : Bool :=
  !(fltLt (some 73.66) lng && fltLt lng (some 135.05) &&
    fltLt (some 3.86) lat && fltLt lat (some 53.55))

/-- `wgs84_to_gcj02` over possibly-NaN inputs.  The fallback arm of the inner
match is unreachable: whenever the guard is false both inputs are finite. -/
noncomputable def wgs84_to_gcj02_f (lng lat : Option ℝ) : Option ℝ × Option ℝ :=
  if out_of_china_f lng lat then (lng, lat)
  else
    match lng, lat with
    | some x, some y =>
        (some (wgs84_to_gcj02 x y).1, some (wgs84_to_gcj02 x y).2)
    | _, _ => (lng, lat)

/-- The non-identity branch of `wgs84_to_gcj02`, written out in full. -/
lemma wgs84_to_gcj02_inside (lng lat : ℝ) (h : ¬ _out_of_china lng lat) :
    wgs84_to_gcj02 lng lat =
      (lng + (_transform_lng (lng - 105.0) (lat - 35.0) * 180.0) /
          (A / Real.sqrt (1 - EE * Real.sin (lat / 180.0 * PI) * Real.sin (lat / 180.0 * PI)) *
            Real.cos (lat / 180.0 * PI) * PI),
       lat + (_transform_lat (lng - 105.0) (lat - 35.0) * 180.0) /
          ((A * (1 - EE)) /
            ((1 - EE * Real.sin (lat / 180.0 * PI) * Real.sin (lat / 180.0 * PI)) *
              Real.sqrt (1 - EE * Real.sin (lat / 180.0 * PI) * Real.sin (lat / 180.0 * PI))) *
            PI)) := by
  unfold wgs84_to_gcj02
  rw [if_neg h]

/-- The identity branch of `wgs84_to_gcj02`. -/
lemma wgs84_to_gcj02_outside (lng lat : ℝ) (h : _out_of_china lng lat) :
    wgs84_to_gcj02 lng lat = (lng, lat) := by
  unfold wgs84_to_gcj02
  rw [if_pos h]

/-- C2: outside the bounding rectangle (longitude not in (73.66, 135.05) or
latitude not in (3.86, 53.55)) the distortion stage returns its input pair
unchanged. -/
theorem wgs84_outside_identity (lng lat : ℝ)
    (h : ¬(73.66 < lng ∧ lng < 135.05) ∨ ¬(3.86 < lat ∧ lat < 53.55)) :
    wgs84_to_gcj02 lng lat = (lng, lat) := by
  apply wgs84_to_gcj02_outside
  unfold _out_of_china
  tauto

/-- Witness for C2 at the concrete point (0, 0). -/
theorem wgs84_outside_identity_witness : wgs84_to_gcj02 0 0 = (0, 0) :=
  wgs84_outside_identity 0 0 (Or.inl (by norm_num))

/-- C3: the distortion branch is taken iff the point is strictly inside the
bounding rectangle, and any point lying exactly on one of the four rectangle
edges is treated as outside, hence returned unchanged. -/
theorem distortion_iff_strictly_inside (lng lat : ℝ) :
    (¬ _out_of_china lng lat ↔
        (73.66 < lng ∧ lng < 135.05 ∧ 3.86 < lat ∧ lat < 53.55)) ∧
      ((lng = 73.66 ∨ lng = 135.05 ∨ lat = 3.86 ∨ lat = 53.55) →
        wgs84_to_gcj02 lng lat = (lng, lat)) := by
  constructor
  · unfold _out_of_china
    exact not_not
  · intro h
    apply wgs84_to_gcj02_outside
    unfold _out_of_china
    rcases h with h | h | h | h <;> subst h <;>
      (intro hc; rcases hc with ⟨h1, h2, h3, h4⟩) <;> linarith

/-- Witness for C3: the boundary point (73.66, 20) is returned unchanged. -/
theorem distortion_iff_strictly_inside_witness :
    wgs84_to_gcj02 73.66 20 = (73.66, 20) :=
  (distortion_iff_strictly_inside 73.66 20).2 (Or.inl rfl)

lemma magic_pos (x : ℝ) : (0 : ℝ) < 1 - EE * Real.sin x * Real.sin x := by
  have h1 : Real.sin x * Real.sin x ≤ 1 := by
    have := Real.sin_sq_le_one x
    nlinarith [this]
  have h2 : (0 : ℝ) ≤ Real.sin x * Real.sin x := mul_self_nonneg _
  unfold EE
  nlinarith

lemma rpow_three_halves_eq (x : ℝ) (hx : 0 < x) :
    x ^ (1.5 : ℝ) = x * Real.sqrt x := by
  have h : (1.5 : ℝ) = 1 + 1 / 2 := by norm_num
  rw [h, Real.rpow_add hx, Real.rpow_one, ← Real.sqrt_eq_rpow]

/-- C1: strictly inside the bounding rectangle, the distortion stage computes
exactly the corrections, scaling, and final sum that the specification
describes. -/
theorem wgs84_matches_spec (lng lat : ℝ)
    (h : 73.66 < lng ∧ lng < 135.05 ∧ 3.86 < lat ∧ lat < 53.55) :
    wgs84_to_gcj02 lng lat = wgs84_to_gcj02_spec lng lat := by
  rw [wgs84_to_gcj02_inside lng lat (not_not_intro h)]
  unfold wgs84_to_gcj02_spec magic_spec dLat_spec dLng_spec _transform_lat _transform_lng
  have hsq : Real.sin (lat / 180.0 * PI) ^ 2 =
      Real.sin (lat / 180.0 * PI) * Real.sin (lat / 180.0 * PI) := sq _
  have hm : (0 : ℝ) <
      1 - EE * (Real.sin (lat / 180.0 * PI) * Real.sin (lat / 180.0 * PI)) := by
    have h0 := magic_pos (lat / 180.0 * PI)
    ring_nf at h0 ⊢
    exact h0
  rw [hsq, rpow_three_halves_eq _ hm]
  ring_nf

/-- Witness for C1 at the concrete point (116.404, 39.915). -/
theorem wgs84_matches_spec_witness :
    wgs84_to_gcj02 116.404 39.915 = wgs84_to_gcj02_spec 116.404 39.915 :=
  wgs84_matches_spec 116.404 39.915 (by norm_num)

/-- C7: the composite conversion is exactly the reprojection (the abstract
external transformer) followed by the distortion stage applied to the
intermediate pair — nothing else added or reordered. -/
theorem composite_is_two_stage_composition (transform : ℝ → ℝ → ℝ × ℝ)
    (lng lat : ℝ) :
    cgcs2000_to_gcj02 transform lng lat =
      wgs84_to_gcj02 (transform lng lat).1 (transform lng lat).2 := rfl

/-- The operational relation agrees with the functional embedding. -/
lemma distortStep_sound (lng lat : ℝ) :
    DistortStep (lng, lat) (wgs84_to_gcj02 lng lat) := by
  by_cases h : _out_of_china lng lat
  · rw [wgs84_to_gcj02_outside lng lat h]
    exact DistortStep.outside lng lat h
  · rw [wgs84_to_gcj02_inside lng lat h]
    exact DistortStep.inside lng lat h

lemma distortStep_deterministic (q o₁ o₂ : ℝ × ℝ)
    (h₁ : DistortStep q o₁) (h₂ : DistortStep q o₂) : o₁ = o₂ := by
  cases h₁ with
  | outside lng lat hout =>
      cases h₂ with
      | outside lng' lat' hout' => rfl
      | inside lng' lat' hin' => exact absurd hout hin'
  | inside lng lat hin =>
      cases h₂ with
      | outside lng' lat' hout' => exact absurd hout' hin
      | inside lng' lat' hin' => rfl

/-- C8: the composite conversion is deterministic — two invocations on the
same input pair yield the same output pair. -/
theorem convert_deterministic (transform : ℝ → ℝ → ℝ × ℝ) (p o₁ o₂ : ℝ × ℝ)
    (h₁ : ConvertStep transform p o₁) (h₂ : ConvertStep transform p o₂) :
    o₁ = o₂ := by
  cases h₁ with
  | step lng lat out hd =>
      cases h₂ with
      | step lng' lat' out' hd' => exact distortStep_deterministic _ _ _ hd hd'

/-- Witness for C8: two concrete derivations for the input (0, 0) under the
identity reprojection produce equal outputs. -/
theorem convert_deterministic_witness : ((0 : ℝ), (0 : ℝ)) = ((0 : ℝ), (0 : ℝ)) := by
  have hout : _out_of_china 0 0 := by unfold _out_of_china; norm_num
  have d : ConvertStep (fun a b => (a, b)) (0, 0) (0, 0) :=
    ConvertStep.step 0 0 (0, 0) (DistortStep.outside 0 0 hout)
  exact convert_deterministic (fun a b => (a, b)) (0, 0) (0, 0) (0, 0) d d

lemma sqrtChecked_of_nonneg {x : ℝ} (h : 0 ≤ x) :
    sqrtChecked x = some (Real.sqrt x) := by
  unfold sqrtChecked
  rw [if_neg (not_lt.mpr h)]

lemma divChecked_of_ne {x y : ℝ} (h : y ≠ 0) : divChecked x y = some (x / y) := by
  unfold divChecked
  rw [if_neg h]

lemma transform_lat_checked_eq (lng lat : ℝ) :
    _transform_lat_checked lng lat = some (_transform_lat lng lat) := by
  unfold _transform_lat_checked _transform_lat
  rw [sqrtChecked_of_nonneg (abs_nonneg lng), Option.some_bind']

lemma transform_lng_checked_eq (lng lat : ℝ) :
    _transform_lng_checked lng lat = some (_transform_lng lng lat) := by
  unfold _transform_lng_checked _transform_lng
  rw [sqrtChecked_of_nonneg (abs_nonneg lng), Option.some_bind']

lemma PI_pos : (0 : ℝ) < PI := by unfold PI; norm_num

/-- For latitudes strictly inside (3.86, 53.55) the code's latitude-in-radians
value lies in (0, π/2), so its cosine is strictly positive. -/
lemma cos_rad_lat_pos (lat : ℝ) (h3 : 3.86 < lat) (h4 : lat < 53.55) :
    0 < Real.cos (lat / 180.0 * PI) := by
  apply Real.cos_pos_of_mem_Ioo
  constructor
  · have hpi2 : (0 : ℝ) < Real.pi / 2 := by positivity
    have : (0 : ℝ) < lat / 180.0 * PI := by
      unfold PI
      nlinarith
    linarith
  · have hpi : (3 : ℝ) < Real.pi := Real.pi_gt_three
    unfold PI
    nlinarith

/-- Core safety lemma: the checked distortion stage always succeeds and
computes exactly the unchecked result. -/
lemma wgs84_checked_eq (lng lat : ℝ) :
    wgs84_to_gcj02_checked lng lat = some (wgs84_to_gcj02 lng lat) := by
  by_cases h : _out_of_china lng lat
  · unfold wgs84_to_gcj02_checked
    rw [if_pos h, wgs84_to_gcj02_outside lng lat h]
  · have hP : 73.66 < lng ∧ lng < 135.05 ∧ 3.86 < lat ∧ lat < 53.55 := by
      unfold _out_of_china at h
      exact not_not.mp h
    obtain ⟨h1, h2, h3, h4⟩ := hP
    have hmagic : (0 : ℝ) <
        1 - EE * Real.sin (lat / 180.0 * PI) * Real.sin (lat / 180.0 * PI) :=
      magic_pos _
    have hsm : (0 : ℝ) <
        Real.sqrt (1 - EE * Real.sin (lat / 180.0 * PI) * Real.sin (lat / 180.0 * PI)) :=
      Real.sqrt_pos.mpr hmagic
    have hAEE : (0 : ℝ) < A * (1 - EE) := by unfold A EE; norm_num
    have hA : (0 : ℝ) < A := by unfold A; norm_num
    have hcos := cos_rad_lat_pos lat h3 h4
    have hd1 : (1 - EE * Real.sin (lat / 180.0 * PI) * Real.sin (lat / 180.0 * PI)) *
        Real.sqrt (1 - EE * Real.sin (lat / 180.0 * PI) * Real.sin (lat / 180.0 * PI)) ≠ 0 :=
      (mul_pos hmagic hsm).ne'
    have hd2 : A * (1 - EE) /
        ((1 - EE * Real.sin (lat / 180.0 * PI) * Real.sin (lat / 180.0 * PI)) *
          Real.sqrt (1 - EE * Real.sin (lat / 180.0 * PI) * Real.sin (lat / 180.0 * PI))) *
        PI ≠ 0 :=
      (mul_pos (div_pos hAEE (mul_pos hmagic hsm)) PI_pos).ne'
    have hd3 : Real.sqrt (1 - EE * Real.sin (lat / 180.0 * PI) * Real.sin (lat / 180.0 * PI)) ≠ 0 :=
      hsm.ne'
    have hd4 : A / Real.sqrt (1 - EE * Real.sin (lat / 180.0 * PI) * Real.sin (lat / 180.0 * PI)) *
        Real.cos (lat / 180.0 * PI) * PI ≠ 0 :=
      (mul_pos (mul_pos (div_pos hA hsm) hcos) PI_pos).ne'
    rw [wgs84_to_gcj02_inside lng lat h]
    unfold wgs84_to_gcj02_checked
    rw [if_neg h]
    rw [transform_lat_checked_eq, Option.some_bind', transform_lng_checked_eq,
      Option.some_bind']
    simp only
    rw [sqrtChecked_of_nonneg hmagic.le, Option.some_bind']
    rw [divChecked_of_ne hd1, Option.some_bind']
    rw [divChecked_of_ne hd2, Option.some_bind']
    rw [divChecked_of_ne hd3, Option.some_bind']
    rw [divChecked_of_ne hd4, Option.some_bind']

/-- C4: for every real input the distortion stage completes without reaching
any error branch — the square-root arguments are nonnegative (in particular
`magic > 0`) and the two scaling divisors are nonzero (in particular
`cos(lat_in_radians) ≠ 0` inside the rectangle) — and the checked computation
returns exactly the pair the unchecked stage returns. -/
theorem wgs84_no_error (lng lat : ℝ) :
    wgs84_to_gcj02_checked lng lat = some (wgs84_to_gcj02 lng lat) :=
  wgs84_checked_eq lng lat

/-- C5: inside the bounding rectangle with longitude below 105.0 the
square-root argument `lng − 105.0` is negative, yet because the implementation
takes `sqrt(abs(·))` the checked correction functions succeed and agree with
the (abs-based) reference formulas, and so does the whole stage. -/
theorem sqrt_abs_handles_negative_offset (lng lat : ℝ)
    (h : 73.66 < lng ∧ lng < 135.05 ∧ 3.86 < lat ∧ lat < 53.55)
    (hneg : lng < 105.0) :
    lng - 105.0 < 0 ∧
      _transform_lat_checked (lng - 105.0) (lat - 35.0) =
        some (_transform_lat (lng - 105.0) (lat - 35.0)) ∧
      _transform_lng_checked (lng - 105.0) (lat - 35.0) =
        some (_transform_lng (lng - 105.0) (lat - 35.0)) ∧
      wgs84_to_gcj02_checked lng lat = some (wgs84_to_gcj02 lng lat) :=
  ⟨by linarith, transform_lat_checked_eq _ _, transform_lng_checked_eq _ _,
    wgs84_checked_eq lng lat⟩

/-- Witness for C5 at the concrete point (80, 30), whose longitude offset is
−25. -/
theorem sqrt_abs_handles_negative_offset_witness :
    (80 : ℝ) - 105.0 < 0 ∧
      _transform_lat_checked ((80 : ℝ) - 105.0) ((30 : ℝ) - 35.0) =
        some (_transform_lat ((80 : ℝ) - 105.0) ((30 : ℝ) - 35.0)) ∧
      _transform_lng_checked ((80 : ℝ) - 105.0) ((30 : ℝ) - 35.0) =
        some (_transform_lng ((80 : ℝ) - 105.0) ((30 : ℝ) - 35.0)) ∧
      wgs84_to_gcj02_checked 80 30 = some (wgs84_to_gcj02 80 30) :=
  sqrt_abs_handles_negative_offset 80 30 (by norm_num) (by norm_num)

/-- On finite inputs the NaN-aware bounding test agrees with the plain one. -/
lemma out_of_china_f_some (x y : ℝ) :
    out_of_china_f (some x) (some y) = decide (_out_of_china x y) := by
  unfold out_of_china_f fltLt _out_of_china
  by_cases h1 : 73.66 < x <;> by_cases h2 : x < 135.05 <;>
    by_cases h3 : 3.86 < y <;> by_cases h4 : y < 53.55 <;>
    simp [h1, h2, h3, h4]

/-- On finite inputs the possibly-NaN model agrees with the real embedding. -/
lemma wgs84_f_agrees (x y : ℝ) :
    wgs84_to_gcj02_f (some x) (some y) =
      (some (wgs84_to_gcj02 x y).1, some (wgs84_to_gcj02 x y).2) := by
  unfold wgs84_to_gcj02_f
  rw [out_of_china_f_some]
  by_cases h : _out_of_china x y
  · rw [if_pos (decide_eq_true h), wgs84_to_gcj02_outside x y h]
  · rw [if_neg (by simp [h])]

/-- C10: the distortion stage does not enforce finiteness — when either
coordinate is NaN every strict comparison of the bounding predicate is false,
so `_out_of_china` answers true and the stage returns the non-finite pair
unchanged instead of raising. -/
theorem nan_passthrough (y : Option ℝ) :
    fltLt none y = false ∧ fltLt y none = false ∧
      out_of_china_f none y = true ∧ out_of_china_f y none = true ∧
      wgs84_to_gcj02_f none y = (none, y) ∧ wgs84_to_gcj02_f y none = (y, none) := by
  have h1 : fltLt none y = false := by cases y <;> rfl
  have h2 : fltLt y none = false := by cases y <;> rfl
  have h3 : out_of_china_f none y = true := by
    unfold out_of_china_f
    rw [show fltLt (some 73.66) none = false from rfl]
    cases y <;> simp [fltLt]
  have h4 : out_of_china_f y none = true := by
    unfold out_of_china_f
    rw [show fltLt (some 3.86) (none : Option ℝ) = false from rfl]
    simp
  refine ⟨h1, h2, h3, h4, ?_, ?_⟩
  · unfold wgs84_to_gcj02_f
    rw [if_pos h3]
  · unfold wgs84_to_gcj02_f
    rw [if_pos h4]

/-- C9 (loop part): a record whose latitude or longitude fails to parse is
omitted entirely, and the loop is exactly a `filterMap` of the per-row body. -/
theorem unparsed_record_contributes_no_point (transform : ℝ → ℝ → ℝ × ℝ)
    (r : Row) (rows : List Row)
    (h : parse_coord_py (some r.lat_str) = none ∨
         parse_coord_py (some r.lng_str) = none) :
    sheet_to_points transform (r :: rows) = sheet_to_points transform rows ∧
      ∀ rs : List Row,
        sheet_to_points transform rs = rs.filterMap (rowToPoint transform) := by
  have hnone : rowToPoint transform r = none := by
    unfold rowToPoint
    rcases h with h | h <;> rw [h] <;>
      try (cases parse_coord_py (some r.lat_str) <;> rfl)
  constructor
  · simp only [sheet_to_points, hnone]
  · intro rs
    induction rs with
    | nil => rfl
    | cons a l ih =>
        cases hr : rowToPoint transform a <;>
          simp [sheet_to_points, List.filterMap_cons, hr, ih]

/-- Witness for C9: the malformed latitude text "abc" parses to `none`, and a
row carrying it contributes no point. -/
theorem unparsed_record_contributes_no_point_witness :
    sheet_to_points (fun a b => (a, b))
        [{ name := "x", lat_str := "abc", lng_str := "120.1", category := "" }] =
      sheet_to_points (fun a b => (a, b)) [] :=
  (unparsed_record_contributes_no_point (fun a b => (a, b))
      { name := "x", lat_str := "abc", lng_str := "120.1", category := "" } []
      (Or.inl (by decide))).1

/-- The sine function is 1-Lipschitz. -/
lemma abs_sin_sub_sin_le (a b : ℝ) : |Real.sin a - Real.sin b| ≤ |a - b| := by
  rw [Real.sin_sub_sin, abs_mul, abs_mul, abs_two]
  calc 2 * |Real.sin ((a - b) / 2)| * |Real.cos ((a + b) / 2)|
      ≤ 2 * |(a - b) / 2| * 1 := by
        apply mul_le_mul
        · exact mul_le_mul_of_nonneg_left Real.abs_sin_le_abs (by norm_num)
        · exact Real.abs_cos_le_one _
        · exact abs_nonneg _
        · positivity
    _ = |a - b| := by rw [abs_div, abs_two]; ring

/-- The cosine function is 1-Lipschitz. -/
lemma abs_cos_sub_cos_le (a b : ℝ) : |Real.cos a - Real.cos b| ≤ |a - b| := by
  rw [Real.cos_sub_cos, abs_mul, abs_mul, abs_neg, abs_two]
  calc 2 * |Real.sin ((a + b) / 2)| * |Real.sin ((a - b) / 2)|
      ≤ 2 * 1 * |(a - b) / 2| := by
        apply mul_le_mul
        · exact mul_le_mul_of_nonneg_left (Real.abs_sin_le_one _) (by norm_num)
        · exact Real.abs_sin_le_abs
        · exact abs_nonneg _
        · positivity
    _ = |a - b| := by rw [abs_div, abs_two]; ring

/-- Triangle-inequality step used to chain certified enclosures. -/
lemma abs_sub_trans_le {u v w e1 e2 e : ℝ} (h1 : |u - v| ≤ e1) (h2 : |v - w| ≤ e2)
    (he : e1 + e2 ≤ e) : |u - w| ≤ e :=
  le_trans (abs_sub_le u v w) (by linarith)

/-- Negating both argument and centre preserves an absolute-value enclosure. -/
lemma abs_neg_sub_eq (u c : ℝ) : |-u - -c| = |u - c| := by
  rw [show -u - -c = -(u - c) by ring, abs_neg]

/-- Cubic Taylor enclosure of sine around a nearby rational point. -/
lemma sin_taylor_near (x d t : ℝ) (hd : |d| ≤ 1) (hx : |x - d| ≤ t) :
    |Real.sin x - (d - d ^ 3 / 6)| ≤ d ^ 4 * (5 / 96) + t := by
  have h1 := (abs_sin_sub_sin_le x d).trans hx
  have h2 := Real.sin_bound hd
  have h3 := abs_sub_le (Real.sin x) (Real.sin d) (d - d ^ 3 / 6)
  have h4 : |d| ^ 4 = d ^ 4 := by
    rw [pow_abs, abs_of_nonneg (by positivity : (0 : ℝ) ≤ d ^ 4)]
  rw [h4] at h2
  linarith

/-- Quadratic Taylor enclosure of cosine around a nearby rational point. -/
lemma cos_taylor_near (x d t : ℝ) (hd : |d| ≤ 1) (hx : |x - d| ≤ t) :
    |Real.cos x - (1 - d ^ 2 / 2)| ≤ d ^ 4 * (5 / 96) + t := by
  have h1 := (abs_cos_sub_cos_le x d).trans hx
  have h2 := Real.cos_bound hd
  have h3 := abs_sub_le (Real.cos x) (Real.cos d) (1 - d ^ 2 / 2)
  have h4 : |d| ^ 4 = d ^ 4 := by
    rw [pow_abs, abs_of_nonneg (by positivity : (0 : ℝ) ≤ d ^ 4)]
  rw [h4] at h2
  linarith

/-- Angle reduction by a whole number of turns. -/
lemma sin_eq_sin_shift (q : ℝ) (k : ℤ) :
    Real.sin q = Real.sin (q - ((4 * k : ℤ) : ℝ) * Real.pi / 2) := by
  have h : q = (q - ((4 * k : ℤ) : ℝ) * Real.pi / 2) + (k : ℤ) * (2 * Real.pi) := by
    push_cast; ring
  conv_lhs => rw [h]
  rw [Real.sin_add_int_mul_two_pi]

/-- Angle reduction to a quarter turn: `sin` becomes `cos`. -/
lemma sin_eq_cos_shift (q : ℝ) (k : ℤ) :
    Real.sin q = Real.cos (q - ((4 * k + 1 : ℤ) : ℝ) * Real.pi / 2) := by
  have h : q = ((q - ((4 * k + 1 : ℤ) : ℝ) * Real.pi / 2) + Real.pi / 2) +
      (k : ℤ) * (2 * Real.pi) := by
    push_cast; ring
  conv_lhs => rw [h]
  rw [Real.sin_add_int_mul_two_pi, Real.sin_add_pi_div_two]

/-- Angle reduction to a half turn: `sin` flips sign. -/
lemma sin_eq_neg_sin_shift (q : ℝ) (k : ℤ) :
    Real.sin q = -Real.sin (q - ((4 * k + 2 : ℤ) : ℝ) * Real.pi / 2) := by
  have h : q = ((q - ((4 * k + 2 : ℤ) : ℝ) * Real.pi / 2) + Real.pi) +
      (k : ℤ) * (2 * Real.pi) := by
    push_cast; ring
  conv_lhs => rw [h]
  rw [Real.sin_add_int_mul_two_pi, Real.sin_add_pi]

/-- Angle reduction to three quarter turns: `sin` becomes `-cos`. -/
lemma sin_eq_neg_cos_shift (q : ℝ) (k : ℤ) :
    Real.sin q = -Real.cos (q - ((4 * k + 3 : ℤ) : ℝ) * Real.pi / 2) := by
  have h : q = (((q - ((4 * k + 3 : ℤ) : ℝ) * Real.pi / 2) + Real.pi / 2) + Real.pi) +
      (k : ℤ) * (2 * Real.pi) := by
    push_cast; ring
  conv_lhs => rw [h]
  rw [Real.sin_add_int_mul_two_pi, Real.sin_add_pi, Real.sin_add_pi_div_two]

/-- Certified enclosure of the `A1` sine term of the Beijing reference point. -/
lemma sin_A1_bound : |Real.sin (68.424 * PI) - (0.9714966)| ≤ 0.0001695 := by
  rw [sin_eq_cos_shift (68.424 * PI) 34]
  have hx : |(68.424 * PI - ((4 * (34 : ℤ) + 1 : ℤ) : ℝ) * Real.pi / 2) - (-0.238761)| ≤ 0.0000002 := by
    rw [abs_le]
    unfold PI
    push_cast
    constructor <;> linarith [Real.pi_gt_d20, Real.pi_lt_d20]
  have hd : |(-0.238761 : ℝ)| ≤ 1 := abs_le.mpr ⟨by norm_num, by norm_num⟩
  have h := cos_taylor_near _ _ _ hd hx
  have hP : |(1 - (-0.238761 : ℝ) ^ 2 / 2) - (0.9714966 : ℝ)| ≤ 0.000000008 := abs_le.mpr ⟨by norm_num, by norm_num⟩
  exact abs_sub_trans_le h hP (by norm_num)

/-- Certified enclosure of the `A2` sine term of the Beijing reference point. -/
lemma sin_A2_bound : |Real.sin (22.808 * PI) - (0.5666093)| ≤ 0.0068948 := by
  rw [sin_eq_neg_sin_shift (22.808 * PI) 11]
  have hx : |(22.808 * PI - ((4 * (11 : ℤ) + 2 : ℤ) : ℝ) * Real.pi / 2) - (-0.6031858)| ≤ 0.0000002 := by
    rw [abs_le]
    unfold PI
    push_cast
    constructor <;> linarith [Real.pi_gt_d20, Real.pi_lt_d20]
  have hd : |(-0.6031858 : ℝ)| ≤ 1 := abs_le.mpr ⟨by norm_num, by norm_num⟩
  have h := sin_taylor_near _ _ _ hd hx
  have hP : |((-0.6031858 : ℝ) - (-0.6031858 : ℝ) ^ 3 / 6) - (-0.5666093 : ℝ)| ≤ 0.000000006 := abs_le.mpr ⟨by norm_num, by norm_num⟩
  have h2 := abs_sub_trans_le h hP (by norm_num : ((-0.6031858 : ℝ)) ^ 4 * (5 / 96) + 0.0000002 + 0.000000006 ≤ 0.0068948)
  rw [show (0.5666093 : ℝ) = -(-0.5666093 : ℝ) by norm_num, abs_neg_sub_eq]
  exact h2

/-- Certified enclosure of the `A3` sine term of the Beijing reference point. -/
lemma sin_A3_bound : |Real.sin (11.404 * PI) - (-0.9545209)| ≤ 0.0004312 := by
  rw [sin_eq_neg_cos_shift (11.404 * PI) 5]
  have hx : |(11.404 * PI - ((4 * (5 : ℤ) + 3 : ℤ) : ℝ) * Real.pi / 2) - (-0.3015929)| ≤ 0.0000002 := by
    rw [abs_le]
    unfold PI
    push_cast
    constructor <;> linarith [Real.pi_gt_d20, Real.pi_lt_d20]
  have hd : |(-0.3015929 : ℝ)| ≤ 1 := abs_le.mpr ⟨by norm_num, by norm_num⟩
  have h := cos_taylor_near _ _ _ hd hx
  have hP : |(1 - (-0.3015929 : ℝ) ^ 2 / 2) - (0.9545209 : ℝ)| ≤ 0.000000039 := abs_le.mpr ⟨by norm_num, by norm_num⟩
  have h2 := abs_sub_trans_le h hP (by norm_num : ((-0.3015929 : ℝ)) ^ 4 * (5 / 96) + 0.0000002 + 0.000000039 ≤ 0.0004312)
  rw [abs_neg_sub_eq]
  exact h2

/-- Certified enclosure of the `A4` sine term of the Beijing reference point. -/
lemma sin_A4_bound : |Real.sin (11.404 / 3.0 * PI) - (-0.5836093)| ≤ 0.0079034 := by
  rw [sin_eq_sin_shift (11.404 / 3.0 * PI) 2]
  have hx : |(11.404 / 3.0 * PI - ((4 * (2 : ℤ) : ℤ) : ℝ) * Real.pi / 2) - (-0.6241297)| ≤ 0.0000002 := by
    rw [abs_le]
    unfold PI
    push_cast
    constructor <;> linarith [Real.pi_gt_d20, Real.pi_lt_d20]
  have hd : |(-0.6241297 : ℝ)| ≤ 1 := abs_le.mpr ⟨by norm_num, by norm_num⟩
  have h := sin_taylor_near _ _ _ hd hx
  have hP : |((-0.6241297 : ℝ) - (-0.6241297 : ℝ) ^ 3 / 6) - (-0.5836093 : ℝ)| ≤ 0.00000004 := abs_le.mpr ⟨by norm_num, by norm_num⟩
  exact abs_sub_trans_le h hP (by norm_num)

/-- Certified enclosure of the `A5` sine term of the Beijing reference point. -/
lemma sin_A5_bound : |Real.sin (11.404 / 12.0 * PI) - (0.1553993)| ≤ 0.0000312 := by
  rw [sin_eq_neg_sin_shift (11.404 / 12.0 * PI) 0]
  have hx : |(11.404 / 12.0 * PI - ((4 * (0 : ℤ) + 2 : ℤ) : ℝ) * Real.pi / 2) - (-0.1560324)| ≤ 0.0000002 := by
    rw [abs_le]
    unfold PI
    push_cast
    constructor <;> linarith [Real.pi_gt_d20, Real.pi_lt_d20]
  have hd : |(-0.1560324 : ℝ)| ≤ 1 := abs_le.mpr ⟨by norm_num, by norm_num⟩
  have h := sin_taylor_near _ _ _ hd hx
  have hP : |((-0.1560324 : ℝ) - (-0.1560324 : ℝ) ^ 3 / 6) - (-0.1553993 : ℝ)| ≤ 0.000000031 := abs_le.mpr ⟨by norm_num, by norm_num⟩
  have h2 := abs_sub_trans_le h hP (by norm_num : ((-0.1560324 : ℝ)) ^ 4 * (5 / 96) + 0.0000002 + 0.000000031 ≤ 0.0000312)
  rw [show (0.1553993 : ℝ) = -(-0.1553993 : ℝ) by norm_num, abs_neg_sub_eq]
  exact h2

/-- Certified enclosure of the `A6` sine term of the Beijing reference point. -/
lemma sin_A6_bound : |Real.sin (11.404 / 30.0 * PI) - (0.9290967)| ≤ 0.0010476 := by
  rw [sin_eq_cos_shift (11.404 / 30.0 * PI) 0]
  have hx : |(11.404 / 30.0 * PI - ((4 * (0 : ℤ) + 1 : ℤ) : ℝ) * Real.pi / 2) - (-0.3765722)| ≤ 0.0000002 := by
    rw [abs_le]
    unfold PI
    push_cast
    constructor <;> linarith [Real.pi_gt_d20, Real.pi_lt_d20]
  have hd : |(-0.3765722 : ℝ)| ≤ 1 := abs_le.mpr ⟨by norm_num, by norm_num⟩
  have h := cos_taylor_near _ _ _ hd hx
  have hP : |(1 - (-0.3765722 : ℝ) ^ 2 / 2) - (0.9290967 : ℝ)| ≤ 0.000000011 := abs_le.mpr ⟨by norm_num, by norm_num⟩
  exact abs_sub_trans_le h hP (by norm_num)

/-- Certified enclosure of the `B3` sine term of the Beijing reference point. -/
lemma sin_B3_bound : |Real.sin (4.915 * PI) - (0.2638618)| ≤ 0.0002651 := by
  rw [sin_eq_neg_sin_shift (4.915 * PI) 2]
  have hx : |(4.915 * PI - ((4 * (2 : ℤ) + 2 : ℤ) : ℝ) * Real.pi / 2) - (-0.2670354)| ≤ 0.0000002 := by
    rw [abs_le]
    unfold PI
    push_cast
    constructor <;> linarith [Real.pi_gt_d20, Real.pi_lt_d20]
  have hd : |(-0.2670354 : ℝ)| ≤ 1 := abs_le.mpr ⟨by norm_num, by norm_num⟩
  have h := sin_taylor_near _ _ _ hd hx
  have hP : |((-0.2670354 : ℝ) - (-0.2670354 : ℝ) ^ 3 / 6) - (-0.2638618 : ℝ)| ≤ 0.000000023 := abs_le.mpr ⟨by norm_num, by norm_num⟩
  have h2 := abs_sub_trans_le h hP (by norm_num : ((-0.2670354 : ℝ)) ^ 4 * (5 / 96) + 0.0000002 + 0.000000023 ≤ 0.0002651)
  rw [show (0.2638618 : ℝ) = -(-0.2638618 : ℝ) by norm_num, abs_neg_sub_eq]
  exact h2

/-- Certified enclosure of the `B4` sine term of the Beijing reference point. -/
lemma sin_B4_bound : |Real.sin (4.915 / 3.0 * PI) - (-0.9055671)| ≤ 0.0018581 := by
  rw [sin_eq_neg_cos_shift (4.915 / 3.0 * PI) 0]
  have hx : |(4.915 / 3.0 * PI - ((4 * (0 : ℤ) + 3 : ℤ) : ℝ) * Real.pi / 2) - (0.434587)| ≤ 0.0000002 := by
    rw [abs_le]
    unfold PI
    push_cast
    constructor <;> linarith [Real.pi_gt_d20, Real.pi_lt_d20]
  have hd : |(0.434587 : ℝ)| ≤ 1 := abs_le.mpr ⟨by norm_num, by norm_num⟩
  have h := cos_taylor_near _ _ _ hd hx
  have hP : |(1 - (0.434587 : ℝ) ^ 2 / 2) - (0.9055671 : ℝ)| ≤ 0.000000031 := abs_le.mpr ⟨by norm_num, by norm_num⟩
  have h2 := abs_sub_trans_le h hP (by norm_num : ((0.434587 : ℝ)) ^ 4 * (5 / 96) + 0.0000002 + 0.000000031 ≤ 0.0018581)
  rw [abs_neg_sub_eq]
  exact h2

/-- Certified enclosure of the `B5` sine term of the Beijing reference point. -/
lemma sin_B5_bound : |Real.sin (4.915 / 12.0 * PI) - (0.9596571)| ≤ 0.0003394 := by
  rw [sin_eq_cos_shift (4.915 / 12.0 * PI) 0]
  have hx : |(4.915 / 12.0 * PI - ((4 * (0 : ℤ) + 1 : ℤ) : ℝ) * Real.pi / 2) - (-0.2840523)| ≤ 0.0000002 := by
    rw [abs_le]
    unfold PI
    push_cast
    constructor <;> linarith [Real.pi_gt_d20, Real.pi_lt_d20]
  have hd : |(-0.2840523 : ℝ)| ≤ 1 := abs_le.mpr ⟨by norm_num, by norm_num⟩
  have h := cos_taylor_near _ _ _ hd hx
  have hP : |(1 - (-0.2840523 : ℝ) ^ 2 / 2) - (0.9596571 : ℝ)| ≤ 0.000000046 := abs_le.mpr ⟨by norm_num, by norm_num⟩
  exact abs_sub_trans_le h hP (by norm_num)

/-- Certified enclosure of the `B6` sine term of the Beijing reference point. -/
lemma sin_B6_bound : |Real.sin (4.915 / 30.0 * PI) - (0.4919725)| ≤ 0.0036555 := by
  have hx : |(4.915 / 30.0 * PI) - (0.5146976)| ≤ 0.0000002 := by
    rw [abs_le]
    unfold PI
    push_cast
    constructor <;> linarith [Real.pi_gt_d20, Real.pi_lt_d20]
  have hd : |(0.5146976 : ℝ)| ≤ 1 := abs_le.mpr ⟨by norm_num, by norm_num⟩
  have h := sin_taylor_near _ _ _ hd hx
  have hP : |((0.5146976 : ℝ) - (0.5146976 : ℝ) ^ 3 / 6) - (0.4919725 : ℝ)| ≤ 0.000000033 := abs_le.mpr ⟨by norm_num, by norm_num⟩
  exact abs_sub_trans_le h hP (by norm_num)

/-- Certified enclosure of the `R` sine term of the Beijing reference point. -/
lemma sin_R_bound : |Real.sin (39.915 / 180.0 * PI) - (0.6402988)| ≤ 0.0122677 := by
  have hx : |(39.915 / 180.0 * PI) - (0.6966482)| ≤ 0.0000002 := by
    rw [abs_le]
    unfold PI
    push_cast
    constructor <;> linarith [Real.pi_gt_d20, Real.pi_lt_d20]
  have hd : |(0.6966482 : ℝ)| ≤ 1 := abs_le.mpr ⟨by norm_num, by norm_num⟩
  have h := sin_taylor_near _ _ _ hd hx
  have hP : |((0.6966482 : ℝ) - (0.6966482 : ℝ) ^ 3 / 6) - (0.6402988 : ℝ)| ≤ 0.000000002 := abs_le.mpr ⟨by norm_num, by norm_num⟩
  exact abs_sub_trans_le h hP (by norm_num)

/-- Certified enclosure of the `H` sine term of the Beijing reference point. -/
lemma sin_H_bound : |Real.sin (39.915 / 360.0 * PI) - (0.3412804)| ≤ 0.000767 := by
  have hx : |(39.915 / 360.0 * PI) - (0.3483241)| ≤ 0.0000002 := by
    rw [abs_le]
    unfold PI
    push_cast
    constructor <;> linarith [Real.pi_gt_d20, Real.pi_lt_d20]
  have hd : |(0.3483241 : ℝ)| ≤ 1 := abs_le.mpr ⟨by norm_num, by norm_num⟩
  have h := sin_taylor_near _ _ _ hd hx
  have hP : |((0.3483241 : ℝ) - (0.3483241 : ℝ) ^ 3 / 6) - (0.3412804 : ℝ)| ≤ 0.000000025 := abs_le.mpr ⟨by norm_num, by norm_num⟩
  exact abs_sub_trans_le h hP (by norm_num)

/-- Move a nested denominator of the form `a / s * c * p` into the numerator. -/
lemma div_shuffle1 (X a s c p : ℝ) : X / (a / s * c * p) = X * s / (a * c * p) := by
  rw [div_mul_eq_mul_div, div_mul_eq_mul_div, div_div_eq_mul_div]

/-- Move a nested denominator of the form `a / m * p` into the numerator. -/
lemma div_shuffle2 (X a m p : ℝ) : X / (a / m * p) = X * m / (a * p) := by
  rw [div_mul_eq_mul_div, div_div_eq_mul_div]

/-- Enclosure of `magic = 1 - ee*sin^2` from an enclosure of the sine. -/
lemma magic_encl {s : ℝ} (h1 : -0.0122677 ≤ s - 0.6402988)
    (h2 : s - 0.6402988 ≤ 0.0122677) :
    (0.99714 : ℝ) ≤ 1 - 0.00669342162296594323 * s * s ∧
      1 - 0.00669342162296594323 * s * s ≤ 0.99736 := by
  constructor <;> nlinarith

/-- Enclosure of `cos = 1 - 2*sin^2(half)` from an enclosure of the sine. -/
lemma cos_encl {s : ℝ} (h1 : -0.000767 ≤ s - 0.3412804)
    (h2 : s - 0.3412804 ≤ 0.000767) :
    (0.76600 : ℝ) ≤ 1 - 2 * s ^ 2 ∧ 1 - 2 * s ^ 2 ≤ 0.76811 := by
  constructor <;> nlinarith

/-- Interval product bound for nonnegative intervals. -/
lemma prod_encl {x y a b c d : ℝ} (hx1 : a ≤ x) (hx2 : x ≤ b) (hy1 : c ≤ y)
    (hy2 : y ≤ d) (ha : 0 ≤ a) (hc : 0 ≤ c) : a * c ≤ x * y ∧ x * y ≤ b * d :=
  ⟨mul_le_mul hx1 hy1 hc (ha.trans hx1),
   mul_le_mul hx2 hy2 (hc.trans hy1) ((ha.trans hx1).trans hx2)⟩

set_option maxHeartbeats 1600000 in
/-- C6: the distortion stage maps the Beijing reference point
(116.404, 39.915) to within 1e-4 degrees of (116.41024, 39.91634) in each
coordinate. -/
theorem beijing_reference_vector :
    |(wgs84_to_gcj02 116.404 39.915).1 - 116.41024| < 1 / 10 ^ 4 ∧
      |(wgs84_to_gcj02 116.404 39.915).2 - 39.91634| < 1 / 10 ^ 4 := by
  have hin : ¬ _out_of_china 116.404 39.915 := fun hc => hc (by norm_num)
  rw [wgs84_to_gcj02_inside _ _ hin]
  dsimp only
  rw [show (116.404 : ℝ) - 105.0 = 11.404 by norm_num,
    show (39.915 : ℝ) - 35.0 = 4.915 by norm_num]
  unfold _transform_lat _transform_lng
  rw [show (6.0 : ℝ) * 11.404 * PI = 68.424 * PI by norm_num,
    show (2.0 : ℝ) * 11.404 * PI = 22.808 * PI by norm_num,
    show |(11.404 : ℝ)| = 11.404 from abs_of_nonneg (by norm_num)]
  have hcosEq : Real.cos (39.915 / 180.0 * PI) =
      1 - 2 * Real.sin (39.915 / 360.0 * PI) ^ 2 := by
    rw [show (39.915 : ℝ) / 180.0 * PI = 2 * (39.915 / 360.0 * PI) by ring,
      Real.cos_two_mul']
    have h := Real.sin_sq_add_cos_sq (39.915 / 360.0 * PI)
    linarith
  rw [hcosEq]
  unfold A EE
  rw [div_shuffle1, div_shuffle2]
  obtain ⟨hA1a, hA1b⟩ := abs_le.mp sin_A1_bound
  obtain ⟨hA2a, hA2b⟩ := abs_le.mp sin_A2_bound
  obtain ⟨hA3a, hA3b⟩ := abs_le.mp sin_A3_bound
  obtain ⟨hA4a, hA4b⟩ := abs_le.mp sin_A4_bound
  obtain ⟨hA5a, hA5b⟩ := abs_le.mp sin_A5_bound
  obtain ⟨hA6a, hA6b⟩ := abs_le.mp sin_A6_bound
  obtain ⟨hB3a, hB3b⟩ := abs_le.mp sin_B3_bound
  obtain ⟨hB4a, hB4b⟩ := abs_le.mp sin_B4_bound
  obtain ⟨hB5a, hB5b⟩ := abs_le.mp sin_B5_bound
  obtain ⟨hB6a, hB6b⟩ := abs_le.mp sin_B6_bound
  obtain ⟨hRa, hRb⟩ := abs_le.mp sin_R_bound
  obtain ⟨hHa, hHb⟩ := abs_le.mp sin_H_bound
  have hs114a : (3.3769808 : ℝ) ≤ Real.sqrt 11.404 := by
    rw [show (3.3769808 : ℝ) = Real.sqrt (3.3769808 ^ 2) from
      (Real.sqrt_sq (by norm_num)).symm]
    exact Real.sqrt_le_sqrt (by norm_num)
  have hs114b : Real.sqrt 11.404 ≤ 3.3769811 := by
    calc Real.sqrt 11.404 ≤ Real.sqrt (3.3769811 ^ 2) :=
          Real.sqrt_le_sqrt (by norm_num)
      _ = 3.3769811 := Real.sqrt_sq (by norm_num)
  set s1 := Real.sin (68.424 * PI) with hs1def
  set s2 := Real.sin (22.808 * PI) with hs2def
  set s3 := Real.sin (11.404 * PI) with hs3def
  set s4 := Real.sin (11.404 / 3.0 * PI) with hs4def
  set s5 := Real.sin (11.404 / 12.0 * PI) with hs5def
  set s6 := Real.sin (11.404 / 30.0 * PI) with hs6def
  set u3 := Real.sin (4.915 * PI) with hu3def
  set u4 := Real.sin (4.915 / 3.0 * PI) with hu4def
  set u5 := Real.sin (4.915 / 12.0 * PI) with hu5def
  set u6 := Real.sin (4.915 / 30.0 * PI) with hu6def
  set sr := Real.sin (39.915 / 180.0 * PI) with hsrdef
  set sh := Real.sin (39.915 / 360.0 * PI) with hshdef
  set w := Real.sqrt 11.404 with hwdef
  set sm := Real.sqrt (1 - 0.00669342162296594323 * sr * sr) with hsmdef
  rw [show PI = (3.1415926535897932384626 : ℝ) from rfl]
  obtain ⟨hmagic_lo, hmagic_hi⟩ :=
    magic_encl (s := sr) (by linarith only [hRa]) (by linarith only [hRb])
  have hsm_lo : (0.99856 : ℝ) ≤ sm := by
    rw [hsmdef]
    rw [show (0.99856 : ℝ) = Real.sqrt (0.99856 ^ 2) from
      (Real.sqrt_sq (by norm_num)).symm]
    exact Real.sqrt_le_sqrt (by nlinarith only [hmagic_lo])
  have hsm_hi : sm ≤ 0.99868 := by
    rw [hsmdef]
    calc Real.sqrt (1 - 0.00669342162296594323 * sr * sr)
        ≤ Real.sqrt (0.99868 ^ 2) :=
          Real.sqrt_le_sqrt (by nlinarith only [hmagic_hi])
      _ = 0.99868 := Real.sqrt_sq (by norm_num)
  obtain ⟨hcos_lo, hcos_hi⟩ :=
    cos_encl (s := sh) (by linarith only [hHa]) (by linarith only [hHb])
  obtain ⟨hMS_lo, hMS_hi⟩ :=
    prod_encl hmagic_lo hmagic_hi hsm_lo hsm_hi (by norm_num) (by norm_num)
  have hTlat_lo : (154.89 : ℝ) ≤
      -100.0 + 2.0 * 11.404 + 3.0 * 4.915 + 0.2 * 4.915 * 4.915 +
        0.1 * 11.404 * 4.915 + 0.2 * w +
        (20.0 * s1 + 20.0 * s2) * 2.0 / 3.0 +
        (20.0 * u3 + 40.0 * u4) * 2.0 / 3.0 +
        (160.0 * u5 + 320 * u6) * 2.0 / 3.0 := by
    linarith only [hA1a, hA2a, hB3a, hB4a, hB5a, hB6a, hs114a]
  have hTlat_hi :
      -100.0 + 2.0 * 11.404 + 3.0 * 4.915 + 0.2 * 4.915 * 4.915 +
        0.1 * 11.404 * 4.915 + 0.2 * w +
        (20.0 * s1 + 20.0 * s2) * 2.0 / 3.0 +
        (20.0 * u3 + 40.0 * u4) * 2.0 / 3.0 +
        (160.0 * u5 + 320 * u6) * 2.0 / 3.0 ≤ 156.83 := by
    linarith only [hA1b, hA2b, hB3b, hB4b, hB5b, hB6b, hs114b]
  have hTlng_lo : (533.23 : ℝ) ≤
      300.0 + 11.404 + 2.0 * 4.915 + 0.1 * 11.404 * 11.404 +
        0.1 * 11.404 * 4.915 + 0.1 * w +
        (20.0 * s1 + 20.0 * s2) * 2.0 / 3.0 +
        (20.0 * s3 + 40.0 * s4) * 2.0 / 3.0 +
        (150.0 * s5 + 300.0 * s6) * 2.0 / 3.0 := by
    linarith only [hA1a, hA2a, hA3a, hA4a, hA5a, hA6a, hs114a]
  have hTlng_hi :
      300.0 + 11.404 + 2.0 * 4.915 + 0.1 * 11.404 * 11.404 +
        0.1 * 11.404 * 4.915 + 0.1 * w +
        (20.0 * s1 + 20.0 * s2) * 2.0 / 3.0 +
        (20.0 * s3 + 40.0 * s4) * 2.0 / 3.0 +
        (150.0 * s5 + 300.0 * s6) * 2.0 / 3.0 ≤ 534.29 := by
    linarith only [hA1b, hA2b, hA3b, hA4b, hA5b, hA6b, hs114b]
  obtain ⟨hNlat_lo, hNlat_hi⟩ :=
    prod_encl (x := (-100.0 + 2.0 * 11.404 + 3.0 * 4.915 + 0.2 * 4.915 * 4.915 +
        0.1 * 11.404 * 4.915 + 0.2 * w +
        (20.0 * s1 + 20.0 * s2) * 2.0 / 3.0 +
        (20.0 * u3 + 40.0 * u4) * 2.0 / 3.0 +
        (160.0 * u5 + 320 * u6) * 2.0 / 3.0) * 180.0)
      (y := (1 - 0.00669342162296594323 * sr * sr) * sm)
      (a := 27880.2) (b := 28229.4)
      (by linarith only [hTlat_lo]) (by linarith only [hTlat_hi])
      hMS_lo hMS_hi (by norm_num) (by norm_num)
  obtain ⟨hNlng_lo, hNlng_hi⟩ :=
    prod_encl (x := (300.0 + 11.404 + 2.0 * 4.915 + 0.1 * 11.404 * 11.404 +
        0.1 * 11.404 * 4.915 + 0.1 * w +
        (20.0 * s1 + 20.0 * s2) * 2.0 / 3.0 +
        (20.0 * s3 + 40.0 * s4) * 2.0 / 3.0 +
        (150.0 * s5 + 300.0 * s6) * 2.0 / 3.0) * 180.0)
      (y := sm)
      (a := 95981.4) (b := 96172.2)
      (by linarith only [hTlng_lo]) (by linarith only [hTlng_hi])
      hsm_lo hsm_hi (by norm_num) (by norm_num)
  have hD_pos : (0 : ℝ) <
      6378245.0 * (1 - 2 * sh ^ 2) * 3.1415926535897932384626 := by
    nlinarith only [hcos_lo]
  constructor
  · rw [abs_lt]
    have hfrac_lo : (0.0061400 : ℝ) <
        (300.0 + 11.404 + 2.0 * 4.915 + 0.1 * 11.404 * 11.404 +
          0.1 * 11.404 * 4.915 + 0.1 * w +
          (20.0 * s1 + 20.0 * s2) * 2.0 / 3.0 +
          (20.0 * s3 + 40.0 * s4) * 2.0 / 3.0 +
          (150.0 * s5 + 300.0 * s6) * 2.0 / 3.0) * 180.0 * sm /
          (6378245.0 * (1 - 2 * sh ^ 2) * 3.1415926535897932384626) := by
      rw [lt_div_iff hD_pos]
      nlinarith only [hNlng_lo, hcos_hi]
    have hfrac_hi :
        (300.0 + 11.404 + 2.0 * 4.915 + 0.1 * 11.404 * 11.404 +
          0.1 * 11.404 * 4.915 + 0.1 * w +
          (20.0 * s1 + 20.0 * s2) * 2.0 / 3.0 +
          (20.0 * s3 + 40.0 * s4) * 2.0 / 3.0 +
          (150.0 * s5 + 300.0 * s6) * 2.0 / 3.0) * 180.0 * sm /
          (6378245.0 * (1 - 2 * sh ^ 2) * 3.1415926535897932384626) <
          0.0063400 := by
      rw [div_lt_iff hD_pos]
      nlinarith only [hNlng_hi, hcos_lo]
    constructor <;> linarith only [hfrac_lo, hfrac_hi]
  · rw [abs_lt]
    have hfrac_lo : (0.00124 : ℝ) <
        (-100.0 + 2.0 * 11.404 + 3.0 * 4.915 + 0.2 * 4.915 * 4.915 +
          0.1 * 11.404 * 4.915 + 0.2 * w +
          (20.0 * s1 + 20.0 * s2) * 2.0 / 3.0 +
          (20.0 * u3 + 40.0 * u4) * 2.0 / 3.0 +
          (160.0 * u5 + 320 * u6) * 2.0 / 3.0) * 180.0 *
          ((1 - 0.00669342162296594323 * sr * sr) * sm) /
          (6378245.0 * (1 - 0.00669342162296594323) *
            3.1415926535897932384626) := by
      rw [lt_div_iff (by norm_num)]
      linarith only [hNlat_lo]
    have hfrac_hi :
        (-100.0 + 2.0 * 11.404 + 3.0 * 4.915 + 0.2 * 4.915 * 4.915 +
          0.1 * 11.404 * 4.915 + 0.2 * w +
          (20.0 * s1 + 20.0 * s2) * 2.0 / 3.0 +
          (20.0 * u3 + 40.0 * u4) * 2.0 / 3.0 +
          (160.0 * u5 + 320 * u6) * 2.0 / 3.0) * 180.0 *
          ((1 - 0.00669342162296594323 * sr * sr) * sm) /
          (6378245.0 * (1 - 0.00669342162296594323) *
            3.1415926535897932384626) < 0.00144 := by
      rw [div_lt_iff (by norm_num)]
      linarith only [hNlat_hi]
    constructor <;> linarith only [hfrac_lo, hfrac_hi]

end LinpingRelics
